import Mathlib

/-!
Shallow embedding of the warehouse inventory service (`app/models.py`,
`app/schemas.py`, `app/crud.py`, `app/api/v1/endpoints/*.py`).

Conventions of the embedding:
* SQLAlchemy rows become Lean structures; tables become lists held in a `DB`
  record together with autoincrement counters.
* `created_at` timestamps become a monotone `Nat` tick held in the `DB`,
  incremented on every insert of a stock movement, so `ORDER BY created_at
  DESC` is an exact sort on the tick.
* Python `raise HTTPException` becomes `Except ApiError`; raising aborts the
  request before any session mutation on every error path of the source, so an
  `.error` result carries no new `DB` and the caller keeps the old one.
* Pydantic field validation (`Field(..., ge=0)` etc.) and FastAPI `Query`
  validation run before the CRUD layer; they are embedded as boolean
  validators applied by the endpoint wrappers, failing with a 422
  `validation` error exactly when a constraint is violated.
* Python truthiness tests on optional ids (`if product.category_id:`) are
  embedded by `optTruthy` / `optOptTruthy`: `None` and `0` are falsy.
* Decimal prices are embedded as fixed-point integers (cents); the only
  constraint the source puts on them is `gt=0`.
-/

namespace Warehouse

/-- Row of table `categories` (`app/models.py`, class `Category`). -/
structure Category where
  id : Nat
  name : String
  description : Option String
deriving Repr, DecidableEq

/-- Row of table `suppliers` (`app/models.py`, class `Supplier`). -/
structure Supplier where
  id : Nat
  name : String
  contact_name : Option String
  email : Option String
  phone : Option String
  address : Option String
deriving Repr, DecidableEq

/-- Row of table `products` (`app/models.py`, class `Product`). -/
structure Product where
  id : Nat
  name : String
  description : Option String
  sku : String
  price : Int
  stock_quantity : Int
  reorder_level : Int
  category_id : Option Nat
  supplier_id : Option Nat
deriving Repr, DecidableEq

/-- Row of table `stock_movements` (`app/models.py`, class `StockMovement`). -/
structure StockMovement where
  id : Nat
  product_id : Nat
  quantity : Int
  movement_type : String
  notes : Option String
  created_at : Nat
deriving Repr, DecidableEq

/-- Property `Product.needs_reorder` (`app/models.py` lines 80-83):
`self.stock_quantity <= self.reorder_level`. -/
def Product.needs_reorder (p : Product) : Bool :=
  decide (p.stock_quantity ≤ p.reorder_level)

/-- The persistent store: one list per table plus autoincrement counters and
the timestamp tick. -/
structure DB where
  categories : List Category
  suppliers : List Supplier
  products : List Product
  stock_movements : List StockMovement
  next_category_id : Nat
  next_supplier_id : Nat
  next_product_id : Nat
  next_movement_id : Nat
  tick : Nat
deriving Repr, DecidableEq

/-- Fresh database: empty tables, counters at 1. -/
def DB.empty : DB :=
  { categories := [], suppliers := [], products := [], stock_movements := []
    next_category_id := 1, next_supplier_id := 1, next_product_id := 1
    next_movement_id := 1, tick := 0 }

/-- The `HTTPException` payloads raised by the service: `notFound` is 404,
`conflict` is the 400 "already exists" rejection, `insufficientStock` is the
400 raised by `adjust_product_stock` carrying the current quantity and
`abs(adjustment.quantity)`, and `validation` is FastAPI/Pydantic 422. -/
inductive ApiError where
  | notFound
  | conflict
  | insufficientStock (current : Int) (requested : Nat)
  | validation
deriving Repr, DecidableEq

/-- Request body for product creation (`app/schemas.py`, `ProductCreate`). -/
structure ProductCreate where
  name : String
  description : Option String
  sku : String
  price : Int
  stock_quantity : Int
  reorder_level : Int
  category_id : Option Nat
  supplier_id : Option Nat
deriving Repr, DecidableEq

/-- Pydantic validation of `ProductCreate` (`app/schemas.py`, `ProductBase`):
name length 1..200, sku length 1..100, `price > 0`, `stock_quantity >= 0`,
`reorder_level >= 0`. -/
def validProductCreate (p : ProductCreate) : Bool :=
  decide (1 ≤ p.name.length) && decide (p.name.length ≤ 200) &&
  decide (1 ≤ p.sku.length) && decide (p.sku.length ≤ 100) &&
  decide (0 < p.price) &&
  decide (0 ≤ p.stock_quantity) &&
  decide (0 ≤ p.reorder_level)

/-- Request body for product update (`app/schemas.py`, `ProductUpdate`).
An outer `none` is an unset field (excluded by `model_dump(exclude_unset=True)`);
for the nullable foreign keys `some none` is an explicit null. -/
structure ProductUpdate where
  name : Option String
  description : Option (Option String)
  sku : Option String
  price : Option Int
  stock_quantity : Option Int
  reorder_level : Option Int
  category_id : Option (Option Nat)
  supplier_id : Option (Option Nat)
deriving Repr, DecidableEq

/-- The all-unset update request. -/
def ProductUpdate.unset : ProductUpdate :=
  { name := none, description := none, sku := none, price := none
    stock_quantity := none, reorder_level := none
    category_id := none, supplier_id := none }

/-- Pydantic validation of `ProductUpdate` (`app/schemas.py` lines 78-86):
constraints apply only to fields that are set. -/
def validProductUpdate (u : ProductUpdate) : Bool :=
  (match u.name with
   | none => true
   | some s => decide (1 ≤ s.length) && decide (s.length ≤ 200)) &&
  (match u.sku with
   | none => true
   | some s => decide (1 ≤ s.length) && decide (s.length ≤ 100)) &&
  (match u.price with
   | none => true
   | some c => decide (0 < c)) &&
  (match u.stock_quantity with
   | none => true
   | some q => decide (0 ≤ q)) &&
  (match u.reorder_level with
   | none => true
   | some r => decide (0 ≤ r))

/-- Request body for a stock adjustment (`app/schemas.py`, `StockAdjustment`):
a signed quantity with no range constraint, plus optional notes. -/
structure StockAdjustment where
  quantity : Int
  notes : Option String
deriving Repr, DecidableEq

/-- Python truthiness of an optional integer id (`if product.category_id:`):
`None` and `0` are falsy. -/
def optTruthy : Option Nat → Bool
  | none => false
  | some n => n != 0

/-- Truthiness of an optional-of-nullable id field of `ProductUpdate`. -/
def optOptTruthy : Option (Option Nat) → Bool
  | none => false
  | some none => false
  | some (some n) => n != 0

/-- Truthiness of an optional string (`if product.sku:`): `None` and the empty
string are falsy. -/
def optStrTruthy : Option String → Bool
  | none => false
  | some s => s != ""

/-- `crud.get_category`: first row with the given id. -/
def get_category (db : DB) (cid : Nat) : Option Category :=
  db.categories.find? (fun c => c.id == cid)

/-- `crud.get_category_by_name`. -/
def get_category_by_name (db : DB) (name : String) : Option Category :=
  db.categories.find? (fun c => c.name == name)

/-- `crud.get_supplier`. -/
def get_supplier (db : DB) (sid : Nat) : Option Supplier :=
  db.suppliers.find? (fun s => s.id == sid)

/-- `crud.get_supplier_by_name`. -/
def get_supplier_by_name (db : DB) (name : String) : Option Supplier :=
  db.suppliers.find? (fun s => s.name == name)

/-- `crud.get_product`: first row with the given id. -/
def get_product (db : DB) (pid : Nat) : Option Product :=
  db.products.find? (fun p => p.id == pid)

/-- `crud.get_product_by_sku`. -/
def get_product_by_sku (db : DB) (sku : String) : Option Product :=
  db.products.find? (fun p => p.sku == sku)

/-- `crud.get_low_stock_products` (`app/crud.py` lines 220-224): filter by
`stock_quantity <= reorder_level`, no pagination. -/
def get_low_stock_products (db : DB) : List Product :=
  db.products.filter (fun p => decide (p.stock_quantity ≤ p.reorder_level))

/-- Request body for category creation (`app/schemas.py`, `CategoryCreate`). -/
structure CategoryCreate where
  name : String
  description : Option String
deriving Repr, DecidableEq

/-- Request body for category update (`app/schemas.py`, `CategoryUpdate`). -/
structure CategoryUpdate where
  name : Option String
  description : Option (Option String)
deriving Repr, DecidableEq

/-- Request body for supplier creation (`app/schemas.py`, `SupplierCreate`). -/
structure SupplierCreate where
  name : String
  contact_name : Option String
  email : Option String
  phone : Option String
  address : Option String
deriving Repr, DecidableEq

/-- `crud.create_category`: reject a duplicate name with 400, otherwise insert. -/
def create_category (db : DB) (c : CategoryCreate) : Except ApiError (Category × DB) :=
  if (get_category_by_name db c.name).isSome then
    .error .conflict
  else
    let cat : Category :=
      { id := db.next_category_id, name := c.name, description := c.description }
    .ok (cat, { db with categories := db.categories ++ [cat]
                        next_category_id := db.next_category_id + 1 })

/-- `crud.update_category`: 404 when absent, 400 on a name conflict with a
different row, otherwise overwrite the set fields. -/
def update_category (db : DB) (cid : Nat) (c : CategoryUpdate) :
    Except ApiError (Category × DB) :=
  match get_category db cid with
  | none => .error .notFound
  | some cat =>
    if optStrTruthy c.name &&
        (match get_category_by_name db (c.name.getD "") with
         | some other => other.id != cid
         | none => false) then
      .error .conflict
    else
      let cat' : Category :=
        { cat with name := c.name.getD cat.name
                   description := c.description.getD cat.description }
      .ok (cat', { db with
        categories := db.categories.map (fun x => if x.id == cid then cat' else x) })

/-- `crud.create_supplier`: reject a duplicate name with 400, otherwise insert. -/
def create_supplier (db : DB) (s : SupplierCreate) : Except ApiError (Supplier × DB) :=
  if (get_supplier_by_name db s.name).isSome then
    .error .conflict
  else
    let sup : Supplier :=
      { id := db.next_supplier_id, name := s.name, contact_name := s.contact_name
        email := s.email, phone := s.phone, address := s.address }
    .ok (sup, { db with suppliers := db.suppliers ++ [sup]
                        next_supplier_id := db.next_supplier_id + 1 })

/-- Products owned by a category through the ORM relationship
`Category.products` (`app/models.py` line 22). -/
def categoryChildren (db : DB) (cid : Nat) : List Product :=
  db.products.filter (fun p => p.category_id == some cid)

/-- Products owned by a supplier through the ORM relationship
`Supplier.products` (`app/models.py` line 44). -/
def supplierChildren (db : DB) (sid : Nat) : List Product :=
  db.products.filter (fun p => p.supplier_id == some sid)

/-- `crud.delete_category` (`app/crud.py` lines 74-84): 404 when absent,
otherwise `db.delete(category)` followed by commit. The delete goes through
the ORM session, and the relationship `Category.products` is declared with
`cascade="all, delete-orphan"` (`app/models.py` line 22), so the ORM cascades
the delete to every product of the category (and, through
`Product.stock_movements` with the same cascade, to their movements) — the
column-level `ondelete="SET NULL"` never fires because the rows are deleted
by the session, not orphaned. -/
def delete_category (db : DB) (cid : Nat) : Except ApiError DB :=
  match get_category db cid with
  | none => .error .notFound
  | some _ =>
    .ok { db with
      categories := db.categories.filter (fun c => c.id != cid)
      products := db.products.filter (fun p => p.category_id != some cid)
      stock_movements := db.stock_movements.filter
        (fun m => !((categoryChildren db cid).any (fun p => p.id == m.product_id))) }

/-- `crud.delete_supplier` (`app/crud.py` lines 150-160): same shape as
`delete_category`; `Supplier.products` also carries
`cascade="all, delete-orphan"` (`app/models.py` line 44). -/
def delete_supplier (db : DB) (sid : Nat) : Except ApiError DB :=
  match get_supplier db sid with
  | none => .error .notFound
  | some _ =>
    .ok { db with
      suppliers := db.suppliers.filter (fun s => s.id != sid)
      products := db.products.filter (fun p => p.supplier_id != some sid)
      stock_movements := db.stock_movements.filter
        (fun m => !((supplierChildren db sid).any (fun p => p.id == m.product_id))) }

/-- `crud.create_product` (`app/crud.py` lines 227-270): reject a duplicate
SKU with 400; 404 on a truthy but dangling category or supplier id; insert the
product; then, `if product.stock_quantity > 0`, insert one `initial_stock`
movement with the initial quantity and note "Initial stock entry". -/
def create_product (db : DB) (p : ProductCreate) : Except ApiError (Product × DB) :=
  if (get_product_by_sku db p.sku).isSome then
    .error .conflict
  else if optTruthy p.category_id && (get_category db (p.category_id.getD 0)).isNone then
    .error .notFound
  else if optTruthy p.supplier_id && (get_supplier db (p.supplier_id.getD 0)).isNone then
    .error .notFound
  else
    let prod : Product :=
      { id := db.next_product_id, name := p.name, description := p.description
        sku := p.sku, price := p.price, stock_quantity := p.stock_quantity
        reorder_level := p.reorder_level, category_id := p.category_id
        supplier_id := p.supplier_id }
    let db1 := { db with products := db.products ++ [prod]
                         next_product_id := db.next_product_id + 1 }
    if 0 < p.stock_quantity then
      let mv : StockMovement :=
        { id := db1.next_movement_id, product_id := prod.id
          quantity := p.stock_quantity, movement_type := "initial_stock"
          notes := some "Initial stock entry", created_at := db1.tick }
      .ok (prod, { db1 with stock_movements := db1.stock_movements ++ [mv]
                            next_movement_id := db1.next_movement_id + 1
                            tick := db1.tick + 1 })
    else
      .ok (prod, db1)

/-- Apply the set fields of an update request to a product row (the
`setattr` loop of `crud.update_product`). -/
def applyUpdate (p : Product) (u : ProductUpdate) : Product :=
  { p with
    name := u.name.getD p.name
    description := u.description.getD p.description
    sku := u.sku.getD p.sku
    price := u.price.getD p.price
    stock_quantity := u.stock_quantity.getD p.stock_quantity
    reorder_level := u.reorder_level.getD p.reorder_level
    category_id := u.category_id.getD p.category_id
    supplier_id := u.supplier_id.getD p.supplier_id }

/-- Overwrite the row with the given primary key. -/
def setProduct (products : List Product) (pid : Nat) (p' : Product) : List Product :=
  products.map (fun q => if q.id == pid then p' else q)

/-- `crud.update_product` (`app/crud.py` lines 273-318): 404 when absent, 400
on an SKU conflict with a different row, 404 on a truthy but dangling
category or supplier id, then overwrite the set fields. No stock movement is
recorded on this path. -/
def update_product (db : DB) (pid : Nat) (u : ProductUpdate) :
    Except ApiError (Product × DB) :=
  match get_product db pid with
  | none => .error .notFound
  | some p =>
    if optStrTruthy u.sku &&
        (match get_product_by_sku db (u.sku.getD "") with
         | some other => other.id != pid
         | none => false) then
      .error .conflict
    else if optOptTruthy u.category_id &&
        (get_category db ((u.category_id.getD none).getD 0)).isNone then
      .error .notFound
    else if optOptTruthy u.supplier_id &&
        (get_supplier db ((u.supplier_id.getD none).getD 0)).isNone then
      .error .notFound
    else
      let p' := applyUpdate p u
      .ok (p', { db with products := setProduct db.products pid p' })

/-- `crud.delete_product` (`app/crud.py` lines 321-331): 404 when absent;
deleting a product cascades to its stock movements
(`Product.stock_movements`, `app/models.py` line 75). -/
def delete_product (db : DB) (pid : Nat) : Except ApiError DB :=
  match get_product db pid with
  | none => .error .notFound
  | some _ =>
    .ok { db with
      products := db.products.filter (fun p => p.id != pid)
      stock_movements := db.stock_movements.filter (fun m => m.product_id != pid) }

/-- `crud.adjust_product_stock` (`app/crud.py` lines 334-370): 404 when the
product is absent; compute `new_quantity`; if it is negative raise 400 with
the current quantity and `abs(adjustment.quantity)` before touching anything;
otherwise overwrite the quantity and insert one movement whose kind is
`"stock_in"` when the delta is positive and `"stock_out"` otherwise. -/
def adjust_product_stock (db : DB) (pid : Nat) (adj : StockAdjustment) :
    Except ApiError (Product × DB) :=
  match get_product db pid with
  | none => .error .notFound
  | some p =>
    let new_quantity := p.stock_quantity + adj.quantity
    if new_quantity < 0 then
      .error (.insufficientStock p.stock_quantity adj.quantity.natAbs)
    else
      let p' := { p with stock_quantity := new_quantity }
      let mv : StockMovement :=
        { id := db.next_movement_id, product_id := pid, quantity := adj.quantity
          movement_type := if 0 < adj.quantity then "stock_in" else "stock_out"
          notes := adj.notes, created_at := db.tick }
      .ok (p', { db with products := setProduct db.products pid p'
                         stock_movements := db.stock_movements ++ [mv]
                         next_movement_id := db.next_movement_id + 1
                         tick := db.tick + 1 })

/-- Insert into a list kept sorted by `created_at` descending. -/
def insertDesc (m : StockMovement) : List StockMovement → List StockMovement
  | [] => [m]
  | h :: t => if h.created_at ≤ m.created_at then m :: h :: t else h :: insertDesc m t

/-- Sort by `created_at` descending (`ORDER BY created_at DESC`). -/
def sortDesc : List StockMovement → List StockMovement
  | [] => []
  | h :: t => insertDesc h (sortDesc t)

/-- `crud.get_product_stock_history` (`app/crud.py` lines 373-382): filter by
product id, order by `created_at` descending, then offset and limit. -/
def get_product_stock_history (db : DB) (pid : Nat) (skip limit : Nat) :
    List StockMovement :=
  ((sortDesc (db.stock_movements.filter (fun m => m.product_id == pid))).drop skip).take limit

/-- Endpoint `POST /products/` (`app/api/v1/endpoints/products.py`): Pydantic
validates the body before `crud.create_product` runs. -/
def create_product_endpoint (db : DB) (p : ProductCreate) :
    Except ApiError (Product × DB) :=
  if validProductCreate p then create_product db p else .error .validation

/-- Endpoint `PUT /products/{id}`: Pydantic validates the body before
`crud.update_product` runs. -/
def update_product_endpoint (db : DB) (pid : Nat) (u : ProductUpdate) :
    Except ApiError (Product × DB) :=
  if validProductUpdate u then update_product db pid u else .error .validation

/-- Endpoint `GET /products/{id}/stock-history` (`app/api/v1/endpoints/products.py`
lines 160-175): `skip: int = Query(0, ge=0)` and
`limit: int = Query(100, ge=1, le=1000)` make FastAPI reject an out-of-range
value with a 422 validation error before the handler runs; the handler itself
calls `crud.get_product_stock_history` without checking that the product
exists. -/
def get_stock_history_endpoint (db : DB) (pid : Nat) (skip limit : Int) :
    Except ApiError (List StockMovement) :=
  if skip < 0 ∨ limit < 1 ∨ 1000 < limit then
    .error .validation
  else
    .ok (get_product_stock_history db pid skip.toNat limit.toNat)

/-- One write request of the public API. -/
inductive Op where
  | createCategory (c : CategoryCreate)
  | updateCategory (cid : Nat) (c : CategoryUpdate)
  | deleteCategory (cid : Nat)
  | createSupplier (s : SupplierCreate)
  | deleteSupplier (sid : Nat)
  | createProduct (p : ProductCreate)
  | updateProduct (pid : Nat) (u : ProductUpdate)
  | deleteProduct (pid : Nat)
  | adjustStock (pid : Nat) (a : StockAdjustment)
deriving Repr

/-- State visible after a request: the new store on success, the old one when
the request raised (every raise in the source happens before any session
mutation, so the aborted request leaves no trace). -/
def applyOp (db : DB) : Op → DB
  | .createCategory c =>
    match create_category db c with
    | .ok (_, db') => db'
    | .error _ => db
  | .updateCategory cid c =>
    match update_category db cid c with
    | .ok (_, db') => db'
    | .error _ => db
  | .deleteCategory cid =>
    match delete_category db cid with
    | .ok db' => db'
    | .error _ => db
  | .createSupplier s =>
    match create_supplier db s with
    | .ok (_, db') => db'
    | .error _ => db
  | .deleteSupplier sid =>
    match delete_supplier db sid with
    | .ok db' => db'
    | .error _ => db
  | .createProduct p =>
    match create_product_endpoint db p with
    | .ok (_, db') => db'
    | .error _ => db
  | .updateProduct pid u =>
    match update_product_endpoint db pid u with
    | .ok (_, db') => db'
    | .error _ => db
  | .deleteProduct pid =>
    match delete_product db pid with
    | .ok db' => db'
    | .error _ => db
  | .adjustStock pid a =>
    match adjust_product_stock db pid a with
    | .ok (_, db') => db'
    | .error _ => db

/-- Run a sequence of API write requests against the fresh store. -/
def run (ops : List Op) : DB :=
  ops.foldl applyOp DB.empty

/-- Every stored product has a nonnegative quantity. -/
def StockNonneg (db : DB) : Prop :=
  ∀ p ∈ db.products, 0 ≤ p.stock_quantity

/-- Movements are stored in strictly increasing timestamp order, all older
than the clock. This holds of every reachable store: movements are only ever
appended carrying the current tick, which is then incremented. -/
def MovementsWF (db : DB) : Prop :=
  db.stock_movements.Pairwise (fun a b => a.created_at < b.created_at) ∧
  ∀ m ∈ db.stock_movements, m.created_at < db.tick

/-! ## Helper lemmas -/

deriving instance DecidableEq for Except

/-- Inserting a strictly newest movement in front of a descending sort. -/
theorem sortDesc_append_newest (l : List StockMovement) (m : StockMovement)
    (h : ∀ x ∈ l, x.created_at < m.created_at) :
    sortDesc (l ++ [m]) = m :: sortDesc l := by
  induction l with
  | nil => rfl
  | cons a t ih =>
    have ha : a.created_at < m.created_at := h a (List.mem_cons_self a t)
    have ht : ∀ x ∈ t, x.created_at < m.created_at :=
      fun x hx => h x (List.mem_cons_of_mem a hx)
    simp only [List.cons_append, sortDesc, List.append_eq]
    rw [ih ht]
    simp only [insertDesc, if_neg (Nat.not_le.mpr ha)]

/-- Head of the history after appending a strictly newest matching movement. -/
theorem sortDesc_filter_append_head (l : List StockMovement) (mv : StockMovement)
    (pid : Nat) (hpid : (mv.product_id == pid) = true)
    (hlt : ∀ x ∈ l, x.created_at < mv.created_at) :
    sortDesc ((l ++ [mv]).filter (fun m => m.product_id == pid)) =
      mv :: sortDesc (l.filter (fun m => m.product_id == pid)) := by
  rw [List.filter_append]
  have hone : [mv].filter (fun m => m.product_id == pid) = [mv] := by
    simp [hpid]
  rw [hone]
  exact sortDesc_append_newest _ _ (fun x hx => hlt x (List.mem_of_mem_filter hx))

/-- Membership after an in-place row overwrite. -/
theorem mem_setProduct {l : List Product} {pid : Nat} {p' q : Product}
    (h : q ∈ setProduct l pid p') : q = p' ∨ q ∈ l := by
  simp only [setProduct, List.mem_map] at h
  obtain ⟨a, ha, hqe⟩ := h
  by_cases hA : (a.id == pid) = true
  · left; rw [← hqe, if_pos hA]
  · right; rw [← hqe, if_neg hA]; exact ha

/-- Looking up a row after overwriting it in place. -/
theorem find?_setProduct (l : List Product) (pid : Nat) (p' : Product)
    (hfound : (l.find? (fun q => q.id == pid)).isSome) (hid : (p'.id == pid) = true) :
    (setProduct l pid p').find? (fun q => q.id == pid) = some p' := by
  induction l with
  | nil => simp [List.find?] at hfound
  | cons a t ih =>
    by_cases hA : (a.id == pid) = true
    · simp [setProduct, List.find?, hA, hid]
    · have hAf : (a.id == pid) = false := by simpa using hA
      have hfound' : (t.find? (fun q => q.id == pid)).isSome := by
        simpa [List.find?, hAf] using hfound
      simpa [setProduct, List.find?, hAf] using ih hfound'

/-! ## Witness fixtures -/

/-- Fixture: the creation request of the sample product. -/
def sampleCreate : ProductCreate :=
  { name := "Laptop", description := none, sku := "LAP-1", price := 99999
    stock_quantity := 10, reorder_level := 5, category_id := none
    supplier_id := none }

/-- Fixture: a stored product with stock 10 and reorder level 5. -/
def sampleProduct : Product :=
  { id := 1, name := "Laptop", description := none, sku := "LAP-1", price := 99999
    stock_quantity := 10, reorder_level := 5, category_id := none
    supplier_id := none }

/-- Fixture: a store holding only `sampleProduct`, with an empty ledger. -/
def sampleDB : DB :=
  { DB.empty with products := [sampleProduct], next_product_id := 2 }

/-- Fixture: the store produced by creating `sampleCreate` on the fresh store:
the product plus its `initial_stock` movement. -/
def createdDB : DB :=
  { categories := [], suppliers := [], products := [sampleProduct]
    stock_movements := [{ id := 1, product_id := 1, quantity := 10
                          movement_type := "initial_stock"
                          notes := some "Initial stock entry", created_at := 0 }]
    next_category_id := 1, next_supplier_id := 1, next_product_id := 2
    next_movement_id := 2, tick := 1 }

/-- Fixture: a product exactly at its reorder threshold. -/
def edgeProduct : Product :=
  { id := 1, name := "Cable", description := none, sku := "CAB-1", price := 500
    stock_quantity := 5, reorder_level := 5, category_id := none
    supplier_id := none }

/-- Fixture: a product one unit above its reorder threshold. -/
def edgeAboveProduct : Product :=
  { id := 2, name := "Plug", description := none, sku := "PLG-1", price := 300
    stock_quantity := 6, reorder_level := 5, category_id := none
    supplier_id := none }

/-- Fixture: a store holding the two boundary products. -/
def edgeDB : DB :=
  { DB.empty with products := [edgeProduct, edgeAboveProduct], next_product_id := 3 }

/-! ## Claims -/

/-- C4: `needs_reorder` holds exactly when `stock_quantity ≤ reorder_level`,
and `get_low_stock_products` returns exactly the stored products satisfying
it; at the boundary, a product exactly at its threshold is listed and one
unit above is not. -/
theorem c4_reorder_boundary (db : DB) (p : Product) :
    (p.needs_reorder = true ↔ p.stock_quantity ≤ p.reorder_level) ∧
    (p ∈ get_low_stock_products db ↔ p ∈ db.products ∧ p.needs_reorder = true) ∧
    (p ∈ db.products → p.stock_quantity = p.reorder_level →
      p ∈ get_low_stock_products db) ∧
    (p.stock_quantity = p.reorder_level + 1 → p ∉ get_low_stock_products db) := by
  refine ⟨?_, ?_, ?_, ?_⟩
  · simp [Product.needs_reorder]
  · simp [get_low_stock_products, List.mem_filter, Product.needs_reorder]
  · intro hmem heq
    simp only [get_low_stock_products, List.mem_filter, decide_eq_true_eq]
    exact ⟨hmem, le_of_eq heq⟩
  · intro heq hmem
    simp only [get_low_stock_products, List.mem_filter, decide_eq_true_eq] at hmem
    omega

/-- Witness for C4 at the two boundary fixtures. -/
theorem c4_reorder_boundary_witness :
    edgeProduct ∈ get_low_stock_products edgeDB ∧
    edgeAboveProduct ∉ get_low_stock_products edgeDB :=
  ⟨(c4_reorder_boundary edgeDB edgeProduct).2.2.1 (by simp [edgeDB]) rfl,
   (c4_reorder_boundary edgeDB edgeAboveProduct).2.2.2 rfl⟩

/-- C1: for an existing product and a delta keeping the quantity nonnegative,
`adjust_product_stock` succeeds, returns the product with the old quantity
plus the delta, appends exactly one new ledger entry for the product whose
`quantity` equals the delta, and that entry is first (most recent) in every
subsequently retrieved nonempty page of the stock history. -/
theorem c1_adjust_success (db : DB) (pid : Nat) (adj : StockAdjustment) (p : Product)
    (hwf : MovementsWF db)
    (hp : get_product db pid = some p)
    (hge : 0 ≤ p.stock_quantity + adj.quantity) :
    ∃ p' db' mv,
      adjust_product_stock db pid adj = .ok (p', db') ∧
      p'.stock_quantity = p.stock_quantity + adj.quantity ∧
      db'.stock_movements = db.stock_movements ++ [mv] ∧
      mv.product_id = pid ∧
      mv.quantity = adj.quantity ∧
      ∀ limit : Nat, 1 ≤ limit →
        (get_product_stock_history db' pid 0 limit).head? = some mv := by
  have hnlt : ¬ (p.stock_quantity + adj.quantity < 0) := not_lt.mpr hge
  simp only [adjust_product_stock, hp, if_neg hnlt]
  refine ⟨_, _, _, rfl, rfl, rfl, rfl, rfl, ?_⟩
  intro limit hlim
  obtain ⟨k, rfl⟩ : ∃ k, limit = k + 1 :=
    ⟨limit - 1, (Nat.succ_pred_eq_of_pos hlim).symm⟩
  rw [get_product_stock_history,
    sortDesc_filter_append_head _ _ _ (by simp) (fun x hx => hwf.2 x hx)]
  simp only [List.drop_zero, List.take_succ_cons, List.head?_cons]

/-- Witness for C1: removing 5 units from the sample product. -/
theorem c1_adjust_success_witness :
    ∃ p' db' mv,
      adjust_product_stock sampleDB 1 { quantity := -5, notes := none } =
        .ok (p', db') ∧
      p'.stock_quantity = sampleProduct.stock_quantity + (-5) ∧
      db'.stock_movements = sampleDB.stock_movements ++ [mv] ∧
      mv.product_id = 1 ∧
      mv.quantity = -5 ∧
      ∀ limit : Nat, 1 ≤ limit →
        (get_product_stock_history db' 1 0 limit).head? = some mv :=
  c1_adjust_success sampleDB 1 { quantity := -5, notes := none } sampleProduct
    (by constructor <;> simp [sampleDB, DB.empty]) rfl (by decide)

/-- C2: for an existing product and a delta that would drive the quantity
negative, `adjust_product_stock` fails with the insufficient-stock 400 error
carrying the current quantity and the absolute magnitude of the delta, and
the store afterwards is exactly the store before: the stored quantity and the
ledger are unchanged. -/
theorem c2_adjust_insufficient (db : DB) (pid : Nat) (adj : StockAdjustment)
    (p : Product)
    (hp : get_product db pid = some p)
    (hlt : p.stock_quantity + adj.quantity < 0) :
    adjust_product_stock db pid adj =
      .error (.insufficientStock p.stock_quantity adj.quantity.natAbs) ∧
    applyOp db (Op.adjustStock pid adj) = db ∧
    get_product (applyOp db (Op.adjustStock pid adj)) pid = some p ∧
    get_product_stock_history (applyOp db (Op.adjustStock pid adj)) pid 0 100 =
      get_product_stock_history db pid 0 100 := by
  have h1 : adjust_product_stock db pid adj =
      .error (.insufficientStock p.stock_quantity adj.quantity.natAbs) := by
    simp only [adjust_product_stock, hp, if_pos hlt]
  have h2 : applyOp db (Op.adjustStock pid adj) = db := by
    simp [applyOp, h1]
  exact ⟨h1, h2, by rw [h2, hp], by rw [h2]⟩

/-- Witness for C2: removing 11 units from the sample product holding 10. -/
theorem c2_adjust_insufficient_witness :
    adjust_product_stock sampleDB 1 { quantity := -11, notes := none } =
      .error (.insufficientStock sampleProduct.stock_quantity (11 : Int).natAbs) ∧
    applyOp sampleDB (Op.adjustStock 1 { quantity := -11, notes := none }) =
      sampleDB ∧
    get_product (applyOp sampleDB (Op.adjustStock 1 { quantity := -11, notes := none })) 1 =
      some sampleProduct ∧
    get_product_stock_history
        (applyOp sampleDB (Op.adjustStock 1 { quantity := -11, notes := none })) 1 0 100 =
      get_product_stock_history sampleDB 1 0 100 :=
  c2_adjust_insufficient sampleDB 1 { quantity := -11, notes := none }
    sampleProduct rfl (by decide)

/-- C3: every successful adjustment records a movement whose kind is
`"stock_in"` when the delta is positive and `"stock_out"` otherwise; a zero
delta is permitted on an existing product with nonnegative stock, succeeds,
and is classified `"stock_out"`. -/
theorem c3_movement_kind (db : DB) (pid : Nat) (adj : StockAdjustment) (p : Product)
    (hp : get_product db pid = some p)
    (hge : 0 ≤ p.stock_quantity + adj.quantity) :
    ∃ p' db' mv,
      adjust_product_stock db pid adj = .ok (p', db') ∧
      db'.stock_movements = db.stock_movements ++ [mv] ∧
      mv.movement_type = (if 0 < adj.quantity then "stock_in" else "stock_out") ∧
      (adj.quantity = 0 → mv.movement_type = "stock_out") := by
  have hnlt : ¬ (p.stock_quantity + adj.quantity < 0) := not_lt.mpr hge
  simp only [adjust_product_stock, hp, if_neg hnlt]
  exact ⟨_, _, _, rfl, rfl, rfl, fun h0 => by simp [h0]⟩

/-- Witness for C3 at the zero delta on the sample product. -/
theorem c3_movement_kind_witness :
    ∃ p' db' mv,
      adjust_product_stock sampleDB 1 { quantity := 0, notes := none } =
        .ok (p', db') ∧
      db'.stock_movements = sampleDB.stock_movements ++ [mv] ∧
      mv.movement_type =
        (if (0 : Int) < ({ quantity := 0, notes := none } : StockAdjustment).quantity
         then "stock_in" else "stock_out") ∧
      (({ quantity := 0, notes := none } : StockAdjustment).quantity = 0 →
        mv.movement_type = "stock_out") :=
  c3_movement_kind sampleDB 1 { quantity := 0, notes := none } sampleProduct
    rfl (by decide)

/-- C5: a valid creation request with nonzero initial stock creates, together
with the product, exactly one ledger entry carrying the initial quantity and
kind `"initial_stock"`; with zero initial stock no ledger entry is created. -/
theorem c5_create_initial_ledger (db : DB) (p : ProductCreate) (prod : Product)
    (db' : DB)
    (hv : validProductCreate p = true)
    (h : create_product db p = .ok (prod, db')) :
    prod ∈ db'.products ∧
    (p.stock_quantity ≠ 0 →
      ∃ mv, db'.stock_movements = db.stock_movements ++ [mv] ∧
        mv.product_id = prod.id ∧
        mv.quantity = p.stock_quantity ∧
        mv.movement_type = "initial_stock") ∧
    (p.stock_quantity = 0 → db'.stock_movements = db.stock_movements) := by
  have hge : 0 ≤ p.stock_quantity := by
    simp only [validProductCreate, Bool.and_eq_true, decide_eq_true_eq] at hv
    exact hv.1.2
  simp only [create_product] at h
  split at h
  · simp at h
  · split at h
    · simp at h
    · split at h
      · simp at h
      · split at h
        · simp only [Except.ok.injEq, Prod.mk.injEq] at h
          obtain ⟨h1, h2⟩ := h
          subst h1; subst h2
          refine ⟨by simp, fun _ => ⟨_, rfl, rfl, rfl, rfl⟩, fun h0 => ?_⟩
          omega
        · simp only [Except.ok.injEq, Prod.mk.injEq] at h
          obtain ⟨h1, h2⟩ := h
          subst h1; subst h2
          refine ⟨by simp, fun hne => absurd ?_ hne, fun _ => rfl⟩
          omega

/-- Witness for C5: creating the sample product with initial stock 10 on the
fresh store yields the store with one `initial_stock` entry. -/
theorem c5_create_initial_ledger_witness :
    sampleProduct ∈ createdDB.products ∧
    (sampleCreate.stock_quantity ≠ 0 →
      ∃ mv, createdDB.stock_movements = DB.empty.stock_movements ++ [mv] ∧
        mv.product_id = sampleProduct.id ∧
        mv.quantity = sampleCreate.stock_quantity ∧
        mv.movement_type = "initial_stock") ∧
    (sampleCreate.stock_quantity = 0 →
      createdDB.stock_movements = DB.empty.stock_movements) :=
  c5_create_initial_ledger DB.empty sampleCreate sampleProduct createdDB
    (by decide) (by decide)

/-- Fixture for C6: a category and a supplier each referenced by one product. -/
def refCategory : Category := { id := 1, name := "Electronics", description := none }

/-- Fixture for C6: the referenced supplier. -/
def refSupplier : Supplier :=
  { id := 1, name := "Acme", contact_name := none, email := none, phone := none
    address := none }

/-- Fixture for C6: a product referencing both `refCategory` and `refSupplier`. -/
def refProduct : Product :=
  { id := 1, name := "Laptop", description := none, sku := "LAP-1", price := 99999
    stock_quantity := 10, reorder_level := 5, category_id := some 1
    supplier_id := some 1 }

/-- Fixture for C6: the store holding the three rows above. -/
def refDB : DB :=
  { DB.empty with categories := [refCategory], suppliers := [refSupplier]
                  products := [refProduct], next_category_id := 2
                  next_supplier_id := 2, next_product_id := 2 }

/-- C6 evaluated at the failing input: deleting category 1 (or supplier 1)
from `refDB` deletes product 1 outright — afterwards the product cannot be
read back at all, let alone with a nulled reference — because the ORM
relationships carry `cascade="all, delete-orphan"`. -/
theorem c6_cascade_delete_bug :
    ((delete_category refDB 1).map fun db' => get_product db' 1) = .ok none ∧
    ((delete_category refDB 1).map fun db' => db'.products) = .ok [] ∧
    ((delete_supplier refDB 1).map fun db' => get_product db' 1) = .ok none ∧
    ((delete_supplier refDB 1).map fun db' => db'.products) = .ok [] := by
  decide

/-- Counterexample for C7: a limit of 0 is out of range; the endpoint returns
the 422 validation error, not the result for the clamped limit 1. -/
theorem c7_pagination_counterexample :
    get_stock_history_endpoint createdDB 1 0 0 = .error .validation ∧
    get_stock_history_endpoint createdDB 1 0 0 ≠
      .ok (get_product_stock_history createdDB 1 0 1) := by
  decide

/-- C7 amended: out-of-range pagination values (negative skip, or limit
outside [1,1000]) are rejected with a 422 validation error; in-range values
are passed through to the query unchanged — no clamping occurs. -/
theorem c7_pagination_validation (db : DB) (pid : Nat) (skip limit : Int) :
    ((skip < 0 ∨ limit < 1 ∨ 1000 < limit) →
      get_stock_history_endpoint db pid skip limit = .error .validation) ∧
    (0 ≤ skip → 1 ≤ limit → limit ≤ 1000 →
      get_stock_history_endpoint db pid skip limit =
        .ok (get_product_stock_history db pid skip.toNat limit.toNat)) := by
  constructor
  · intro h
    simp only [get_stock_history_endpoint, if_pos h]
  · intro h1 h2 h3
    rw [get_stock_history_endpoint, if_neg (by omega)]

/-- Witness for C7 at a negative skip and at an in-range pair. -/
theorem c7_pagination_validation_witness :
    get_stock_history_endpoint createdDB 1 (-1) 100 = .error .validation ∧
    get_stock_history_endpoint createdDB 1 0 100 =
      .ok (get_product_stock_history createdDB 1 (0 : Int).toNat (100 : Int).toNat) :=
  ⟨(c7_pagination_validation createdDB 1 (-1) 100).1 (Or.inl (by decide)),
   (c7_pagination_validation createdDB 1 0 100).2 (by decide) (by decide) (by decide)⟩

/-- Counterexample for C8: product 99 does not exist in `createdDB`, yet the
stock-history endpoint answers 200 with the empty list, not 404. -/
theorem c8_missing_product_counterexample :
    get_product createdDB 99 = none ∧
    get_stock_history_endpoint createdDB 99 0 100 = .ok [] ∧
    get_stock_history_endpoint createdDB 99 0 100 ≠ .error .notFound := by
  decide

/-- C8 amended: the endpoint never checks that the product exists; for an id
absent from the store (whose movements all reference stored products, as
every reachable store's do) it returns 200 with the empty list. -/
theorem c8_missing_product_empty_history (db : DB) (pid : Nat)
    (hp : get_product db pid = none)
    (href : ∀ m ∈ db.stock_movements, ∃ q ∈ db.products, m.product_id = q.id) :
    get_stock_history_endpoint db pid 0 100 = .ok [] := by
  have hnone : ∀ q ∈ db.products, ¬ (q.id == pid) = true :=
    List.find?_eq_none.mp hp
  have hfil : db.stock_movements.filter (fun m => m.product_id == pid) = [] := by
    rw [List.filter_eq_nil_iff]
    intro m hm
    obtain ⟨q, hq, hqe⟩ := href m hm
    intro hbeq
    exact hnone q hq (by simpa [hqe] using hbeq)
  rw [get_stock_history_endpoint, if_neg (by omega)]
  simp [get_product_stock_history, hfil, sortDesc]

/-- Witness for C8 at product id 99 on the store holding only product 1. -/
theorem c8_missing_product_empty_history_witness :
    get_stock_history_endpoint createdDB 99 0 100 = .ok [] :=
  c8_missing_product_empty_history createdDB 99 (by decide) (by decide)

/-- C9: a generic update that includes a `stock_quantity` value overwrites
the stored quantity to that value and appends no ledger entry — the quantity
change leaves no audit-trail record. -/
theorem c9_update_bypasses_ledger (db : DB) (pid : Nat) (u : ProductUpdate)
    (q : Int) (p' : Product) (db' : DB)
    (hq : u.stock_quantity = some q)
    (h : update_product db pid u = .ok (p', db')) :
    p'.stock_quantity = q ∧
    db'.stock_movements = db.stock_movements ∧
    get_product db' pid = some p' := by
  simp only [update_product] at h
  split at h
  · simp at h
  · rename_i p hp
    split at h
    · simp at h
    · split at h
      · simp at h
      · split at h
        · simp at h
        · simp only [Except.ok.injEq, Prod.mk.injEq] at h
          obtain ⟨h1, h2⟩ := h
          subst h1; subst h2
          have hpid : (p.id == pid) = true := by
            have := List.find?_some hp
            simpa using this
          refine ⟨by simp [applyUpdate, hq], rfl, ?_⟩
          rw [get_product]
          exact find?_setProduct db.products pid (applyUpdate p u)
            (by simp [get_product] at hp; rw [hp]; rfl)
            (by simpa [applyUpdate] using hpid)

/-- Fixture for C9: an update request setting only `stock_quantity` to 3. -/
def quantityUpdate : ProductUpdate :=
  { ProductUpdate.unset with stock_quantity := some 3 }

/-- Fixture for C9: the sample product after the direct overwrite. -/
def overwrittenProduct : Product :=
  { sampleProduct with stock_quantity := 3 }

/-- Fixture for C9: the store after the direct overwrite. -/
def overwrittenDB : DB :=
  { sampleDB with products := [overwrittenProduct] }

/-- Witness for C9: overwriting the sample product's quantity from 10 to 3
leaves the ledger empty. -/
theorem c9_update_bypasses_ledger_witness :
    overwrittenProduct.stock_quantity = 3 ∧
    overwrittenDB.stock_movements = sampleDB.stock_movements ∧
    get_product overwrittenDB 1 = some overwrittenProduct :=
  c9_update_bypasses_ledger sampleDB 1 quantityUpdate 3 overwrittenProduct
    overwrittenDB (by decide) (by decide)

/-- A valid creation request carries a nonnegative initial quantity. -/
theorem validProductCreate_stock_nonneg {p : ProductCreate}
    (hv : validProductCreate p = true) : 0 ≤ p.stock_quantity := by
  simp only [validProductCreate, Bool.and_eq_true, decide_eq_true_eq] at hv
  exact hv.1.2

/-- A valid update request never sets a negative quantity. -/
theorem validProductUpdate_stock_nonneg {u : ProductUpdate} {q : Int}
    (hv : validProductUpdate u = true) (hq : u.stock_quantity = some q) :
    0 ≤ q := by
  simp only [validProductUpdate, Bool.and_eq_true] at hv
  have h := hv.1.2
  rw [hq] at h
  simpa using h

/-- Every public write request preserves nonnegativity of every stored
quantity. -/
theorem applyOp_stockNonneg (db : DB) (op : Op) (h : StockNonneg db) :
    StockNonneg (applyOp db op) := by
  cases op with
  | createCategory c =>
    simp only [applyOp]
    split
    · rename_i cat db' heq
      simp only [create_category] at heq
      split at heq
      · simp at heq
      · simp only [Except.ok.injEq, Prod.mk.injEq] at heq
        obtain ⟨-, h2⟩ := heq
        subst h2
        exact h
    · exact h
  | updateCategory cid c =>
    simp only [applyOp]
    split
    · rename_i cat db' heq
      simp only [update_category] at heq
      split at heq
      · simp at heq
      · split at heq
        · simp at heq
        · simp only [Except.ok.injEq, Prod.mk.injEq] at heq
          obtain ⟨-, h2⟩ := heq
          subst h2
          exact h
    · exact h
  | deleteCategory cid =>
    simp only [applyOp]
    split
    · rename_i db' heq
      simp only [delete_category] at heq
      split at heq
      · simp at heq
      · simp only [Except.ok.injEq] at heq
        subst heq
        intro q hq
        exact h q (List.mem_of_mem_filter hq)
    · exact h
  | createSupplier s =>
    simp only [applyOp]
    split
    · rename_i sup db' heq
      simp only [create_supplier] at heq
      split at heq
      · simp at heq
      · simp only [Except.ok.injEq, Prod.mk.injEq] at heq
        obtain ⟨-, h2⟩ := heq
        subst h2
        exact h
    · exact h
  | deleteSupplier sid =>
    simp only [applyOp]
    split
    · rename_i db' heq
      simp only [delete_supplier] at heq
      split at heq
      · simp at heq
      · simp only [Except.ok.injEq] at heq
        subst heq
        intro q hq
        exact h q (List.mem_of_mem_filter hq)
    · exact h
  | createProduct p =>
    simp only [applyOp]
    split
    · rename_i prod db' heq
      simp only [create_product_endpoint] at heq
      split at heq
      · rename_i hv
        have hge := validProductCreate_stock_nonneg hv
        simp only [create_product] at heq
        split at heq
        · simp at heq
        · split at heq
          · simp at heq
          · split at heq
            · simp at heq
            · split at heq
              · simp only [Except.ok.injEq, Prod.mk.injEq] at heq
                obtain ⟨-, h2⟩ := heq
                subst h2
                intro q hq
                simp only [List.mem_append, List.mem_singleton] at hq
                rcases hq with hq | rfl
                · exact h q hq
                · exact hge
              · simp only [Except.ok.injEq, Prod.mk.injEq] at heq
                obtain ⟨-, h2⟩ := heq
                subst h2
                intro q hq
                simp only [List.mem_append, List.mem_singleton] at hq
                rcases hq with hq | rfl
                · exact h q hq
                · exact hge
      · simp at heq
    · exact h
  | updateProduct pid u =>
    simp only [applyOp]
    split
    · rename_i p' db' heq
      simp only [update_product_endpoint] at heq
      split at heq
      · rename_i hv
        simp only [update_product] at heq
        split at heq
        · simp at heq
        · rename_i p hp
          split at heq
          · simp at heq
          · split at heq
            · simp at heq
            · split at heq
              · simp at heq
              · simp only [Except.ok.injEq, Prod.mk.injEq] at heq
                obtain ⟨-, h2⟩ := heq
                subst h2
                intro q hq
                rcases mem_setProduct hq with rfl | hq
                · rcases hu : u.stock_quantity with _ | q0
                  · have hmem := List.mem_of_find?_eq_some hp
                    have hold := h _ hmem
                    simpa [applyUpdate, hu] using hold
                  · have hq0 := validProductUpdate_stock_nonneg hv hu
                    simpa [applyUpdate, hu] using hq0
                · exact h q hq
      · simp at heq
    · exact h
  | deleteProduct pid =>
    simp only [applyOp]
    split
    · rename_i db' heq
      simp only [delete_product] at heq
      split at heq
      · simp at heq
      · simp only [Except.ok.injEq] at heq
        subst heq
        intro q hq
        exact h q (List.mem_of_mem_filter hq)
    · exact h
  | adjustStock pid a =>
    simp only [applyOp]
    split
    · rename_i p' db' heq
      simp only [adjust_product_stock] at heq
      split at heq
      · simp at heq
      · rename_i p hp
        split at heq
        · simp at heq
        · rename_i hnlt
          simp only [Except.ok.injEq, Prod.mk.injEq] at heq
          obtain ⟨-, h2⟩ := heq
          subst h2
          intro q hq
          rcases mem_setProduct hq with rfl | hq
          · simpa using not_lt.mp hnlt
          · exact h q hq
    · exact h

/-- The fresh store holds no product, so the invariant holds vacuously. -/
theorem stockNonneg_empty : StockNonneg DB.empty := by
  intro p hp
  simp [DB.empty] at hp

/-- The invariant is preserved along any request sequence. -/
theorem run_stockNonneg_aux (ops : List Op) (db : DB) (h : StockNonneg db) :
    StockNonneg (ops.foldl applyOp db) := by
  induction ops generalizing db with
  | nil => exact h
  | cons op t ih => exact ih (applyOp db op) (applyOp_stockNonneg db op h)

/-- C10: every public write path preserves stock nonnegativity: creation and
update requests carrying a negative quantity are rejected at validation time,
an adjustment that would drive the quantity negative is rejected by the
engine, and every sequence of API write requests run against the fresh store
leaves every stored product with a nonnegative quantity. -/
theorem c10_nonneg_invariant (ops : List Op) (db : DB) (p : ProductCreate)
    (pid : Nat) (u : ProductUpdate) (a : StockAdjustment) (pr : Product) :
    (p.stock_quantity < 0 → create_product_endpoint db p = .error .validation) ∧
    (∀ q : Int, u.stock_quantity = some q → q < 0 →
      update_product_endpoint db pid u = .error .validation) ∧
    (get_product db pid = some pr → pr.stock_quantity + a.quantity < 0 →
      adjust_product_stock db pid a =
        .error (.insufficientStock pr.stock_quantity a.quantity.natAbs)) ∧
    StockNonneg (run ops) := by
  refine ⟨?_, ?_, ?_, run_stockNonneg_aux ops DB.empty stockNonneg_empty⟩
  · intro hneg
    have hvf : validProductCreate p = false := by
      cases hb : validProductCreate p with
      | false => rfl
      | true => exact absurd (validProductCreate_stock_nonneg hb) (not_le.mpr hneg)
    simp [create_product_endpoint, hvf]
  · intro q hq hneg
    have hvf : validProductUpdate u = false := by
      cases hb : validProductUpdate u with
      | false => rfl
      | true => exact absurd (validProductUpdate_stock_nonneg hb hq) (not_le.mpr hneg)
    simp [update_product_endpoint, hvf]
  · intro hp hlt
    simp only [adjust_product_stock, hp, if_pos hlt]

/-- Fixture for C10: a creation request with a negative initial quantity. -/
def negCreate : ProductCreate := { sampleCreate with stock_quantity := -1 }

/-- Fixture for C10: an update request setting a negative quantity. -/
def negUpdate : ProductUpdate :=
  { ProductUpdate.unset with stock_quantity := some (-2) }

/-- Fixture for C10: a concrete request sequence. -/
def opsFixture : List Op :=
  [Op.createProduct sampleCreate,
   Op.adjustStock 1 { quantity := -5, notes := none }]

/-- Witness for C10 at concrete negative requests and a concrete sequence. -/
theorem c10_nonneg_invariant_witness :
    (create_product_endpoint sampleDB negCreate = .error .validation) ∧
    (update_product_endpoint sampleDB 1 negUpdate = .error .validation) ∧
    (adjust_product_stock sampleDB 1 { quantity := -11, notes := none } =
      .error (.insufficientStock sampleProduct.stock_quantity
        ((-11 : Int)).natAbs)) ∧
    StockNonneg (run opsFixture) := by
  have H := c10_nonneg_invariant opsFixture sampleDB negCreate 1 negUpdate
    { quantity := -11, notes := none } sampleProduct
  exact ⟨H.1 (by decide), H.2.1 (-2) (by decide) (by decide),
    H.2.2.1 (by decide) (by decide), H.2.2.2⟩

end Warehouse
